import Mathlib

/-!
Shallow embedding of src/src/c++/lib/applications/strelka/SomaticIndelVcfWriter.cpp.

Modelling conventions:
  - C++ doubles and floats are modelled as exact rationals (ℚ); read counts and
    depths are ℕ (the upstream report-info header is not part of this repository
    slice, and the specification describes them as non-negative integer counts).
  - Where the source stores a product into a 32-bit `unsigned int`, the model
    reduces the product modulo 2^32, which is exactly the C++ unsigned wraparound.
  - Where the source converts a floating average into `int` (an implicit
    truncation toward zero), the model applies an explicit toward-zero truncation.
  - The output stream is modelled as a list of tokens, one token per stream
    insertion.  A float token records whether the stream was in
    fixed/setprecision(2) mode at the moment of insertion (the StreamScoper in
    write_vcf_isri_tiers restores the saved stream flags when the function ends).
  - Stream insertions whose rendering code lives outside this repository slice
    (the NTYPE label table, the DDIINDEL_GRID joint-genotype index printer, the
    filter-set writer, and the Fisher-exact-test phred value) are kept symbolic:
    a dedicated token or value constructor carries the underlying data unchanged.
-/

/-- Sample/tier read evidence record.  Modelled from the spec: the header
declaring starling_indel_sample_report_info is not part of this slice; the spec
describes per-tier depth, high-confidence reference/alt/indel read counts with
forward/reverse strand sub-counts, an other-read count, a read-position
rank-sum statistic, mean mapping quality and a zero-mapping-quality fraction. -/
structure starling_indel_sample_report_info where
  depth : ℕ
  n_q30_ref_reads : ℕ
  n_q30_alt_reads : ℕ
  n_q30_indel_reads : ℕ
  n_q30_ref_reads_fwd : ℕ
  n_q30_ref_reads_rev : ℕ
  n_q30_indel_reads_fwd : ℕ
  n_q30_indel_reads_rev : ℕ
  n_other_reads : ℕ
  readpos_ranksum_u_stat : ℚ
  mean_mapq : ℚ
  mapq0_frac : ℚ
deriving DecidableEq, Repr

/-- Windowed streaming averages.  Modelled from the spec: the win_avg_set header
is not part of this slice; each member is used in the source only through its
avg() accessor, so the model stores the three average values directly. -/
structure win_avg_set where
  ss_used_win_avg : ℚ
  ss_filt_win_avg : ℚ
  ss_submap_win_avg : ℚ
deriving DecidableEq, Repr

/-- Normal-sample genotype classification.  Modelled from the spec: the NTYPE
enumeration (reference / het / hom / unknown) is declared outside this slice. -/
inductive NTYPE where
  | REF
  | HET
  | HOM
  | CONFLICT
deriving DecidableEq, Repr

/-- Indel type tag.  Modelled from the spec: the INDEL enumeration is declared
outside this slice; the source only distinguishes the two breakpoint tags from
ordinary indels. -/
inductive INDEL_index where
  | ORDINARY
  | BP_LEFT
  | BP_RIGHT
deriving DecidableEq, Repr

/-- Indel descriptor (starling_indel_report_info fields used by the source).
Modelled from the spec for the field declarations; is_repeat_unit is the
metadata-presence test the source calls before printing RU/RC/IC. -/
structure starling_indel_report_info where
  vcf_ref_seq : String
  vcf_indel_seq : String
  is_repeat_unit : Bool
  repeat_unit : String
  ref_repeat_count : ℕ
  indel_repeat_count : ℕ
  ihpol : ℕ
  it : INDEL_index
deriving DecidableEq, Repr

/-- Somatic indel call result set (fields of somatic_indel_call::result_set
used by the source).  Modelled from the spec for the declarations: phred-scaled
qualities are non-negative integers, max_gt is the joint-genotype index. -/
structure result_set where
  ntype : NTYPE
  sindel_qphred : ℕ
  sindel_from_ntype_qphred : ℕ
  max_gt : ℕ
  is_overlap : Bool
deriving DecidableEq, Repr

/-- somatic_indel_call: result set plus the evidence tier indices used for the
reported qualities. -/
structure somatic_indel_call where
  rs : result_set
  sindel_tier : ℕ
  sindel_from_ntype_tier : ℕ
deriving DecidableEq, Repr

/-- One buffered candidate: call result, indel descriptor, and the four
evidence records (normal/tumor × tier-1/tier-2).  The source indexes
nisri[0], nisri[1], tisri[0], tisri[1]; the model names the four slots. -/
structure SomaticIndelVcfInfo where
  sindel : somatic_indel_call
  iri : starling_indel_report_info
  nisri0 : starling_indel_sample_report_info
  nisri1 : starling_indel_sample_report_info
  tisri0 : starling_indel_sample_report_info
  tisri1 : starling_indel_sample_report_info
deriving DecidableEq, Repr

/-- Somatic filter thresholds from strelka_options::sfilter used here. -/
structure strelka_filter_options where
  indelMaxWindowFilteredBasecallFrac : ℚ
  sindelQuality_LowerBound : ℚ
deriving DecidableEq, Repr

/-- The strelka_options fields used by the source. -/
structure strelka_options where
  bam_seq_name : String
  sfilter : strelka_filter_options
deriving DecidableEq, Repr

/-- Derived filter options: optional max-depth threshold. -/
structure strelka_deriv_filter_options where
  is_max_depth : Bool
  max_depth : ℚ
deriving DecidableEq, Repr

/-- The strelka_deriv_options fields used by the source. -/
structure strelka_deriv_options where
  sfilter : strelka_deriv_filter_options
deriving DecidableEq, Repr

/-- The VCF filter flags set by this source file. -/
inductive STRELKA_VCF_FILTERS where
  | HighDepth
  | IndelBCNoise
  | QSI_ref
deriving DecidableEq, Repr

/-- Accumulated filter-flag set (strelka_shared_modifiers).  Modelled from the
spec as a set over the filter enumeration; set_filter only ever adds. -/
structure strelka_shared_modifiers where
  filters : List STRELKA_VCF_FILTERS := []
deriving DecidableEq, Repr

/-- set_filter: add a flag to the set (idempotent). -/
def strelka_shared_modifiers.set_filter (smod : strelka_shared_modifiers)
    (f : STRELKA_VCF_FILTERS) : strelka_shared_modifiers :=
  if f ∈ smod.filters then smod else { filters := smod.filters ++ [f] }

/-- Toward-zero truncation of a rational, the effect of the C++ implicit
conversion from double to int (source lines 159-164). -/
def cppTruncToInt (q : ℚ) : ℤ :=
  if 0 ≤ q then ⌊q⌋ else ⌈q⌉

/-- safeFrac (source lines 32-37): num / denom as a real division when the
denominator is positive, else 0. -/
def safeFrac (num denom : ℤ) : ℚ :=
  if denom > 0 then (num : ℚ) / (denom : ℚ) else 0

/-- calculateIndelAF (source lines 43-50): approximate indel allele fraction
from high-quality reads. -/
def calculateIndelAF (isri : starling_indel_sample_report_info) : ℚ :=
  safeFrac (isri.n_q30_indel_reads : ℤ)
    ((isri.n_q30_ref_reads + isri.n_q30_alt_reads + isri.n_q30_indel_reads : ℕ) : ℤ)

/-- Symbolic value of a floating-point stream insertion.  log10 and the
Fisher-exact phred conversion are kept symbolic (injective constructors over
their exact rational/count arguments), so no real-number computation is needed. -/
inductive FloatVal where
  | rat (q : ℚ)
  | posInf
  | log10val (q : ℚ)
  | fisherPhred (n11 n12 n21 n22 : ℕ)
deriving DecidableEq, Repr

/-- calculateSOR (source lines 62-79): the two cross-products are stored into
32-bit unsigned ints (wrapping modulo 2^32); if the stored denominator is zero
the function returns positive infinity, else log10 of the double quotient. -/
def calculateSOR (isri : starling_indel_sample_report_info) : FloatVal :=
  let num : ℕ := (isri.n_q30_ref_reads_fwd * isri.n_q30_indel_reads_rev) % 2 ^ 32
  let denom : ℕ := (isri.n_q30_ref_reads_rev * isri.n_q30_indel_reads_fwd) % 2 ^ 32
  if denom = 0 then FloatVal.posInf
  else FloatVal.log10val ((num : ℚ) / (denom : ℚ))

/-- The spec-worded strand-odds ratio, for comparison with calculateSOR: exact
mathematical cross-products, positive infinity exactly when the exact
denominator product is zero. -/
def calculateSOR_specModel (isri : starling_indel_sample_report_info) : FloatVal :=
  if isri.n_q30_ref_reads_rev * isri.n_q30_indel_reads_fwd = 0 then FloatVal.posInf
  else FloatVal.log10val
    (((isri.n_q30_ref_reads_fwd * isri.n_q30_indel_reads_rev : ℕ) : ℚ) /
     ((isri.n_q30_ref_reads_rev * isri.n_q30_indel_reads_fwd : ℕ) : ℚ))

/-- calculateFS (source lines 82-88): phred-scaled two-sided Fisher exact test
on the strand contingency table.  fisher_exact_test_pval_2x2 and
error_prob_to_phred live outside this slice, so the value is kept symbolic
over the four table entries in the order the source passes them. -/
def calculateFS (isri : starling_indel_sample_report_info) : FloatVal :=
  FloatVal.fisherPhred isri.n_q30_ref_reads_fwd isri.n_q30_indel_reads_fwd
    isri.n_q30_ref_reads_rev isri.n_q30_indel_reads_rev

/-- One stream insertion.  The Bool on float records whether the stream was in
fixed/setprecision(2) mode at that insertion.  ntypeLabel, sgt and filtersTok
stand for insertions rendered by code outside this slice (NTYPE::label, the
DDIINDEL_GRID index printer, strelka_shared_modifiers::write_filters). -/
inductive Token where
  | str (s : String)
  | chr (c : Char)
  | int (n : ℤ)
  | float (v : FloatVal) (fixed2 : Bool)
  | ntypeLabel (nt : NTYPE)
  | sgt (n : ℕ)
  | filtersTok (fs : List STRELKA_VCF_FILTERS)
deriving DecidableEq, Repr

/-- write_vcf_isri_tiers (source lines 91-129): one sample column.  The integer
fields print before the StreamScoper; then std::fixed and setprecision(2) are
set, so every float printed in the rest of the function carries fixed2 = true;
the StreamScoper restores the saved flags when the function returns. -/
def write_vcf_isri_tiers (isri1 isri2 : starling_indel_sample_report_info)
    (was : win_avg_set) : List Token :=
  [Token.int (isri1.depth : ℤ),
   Token.chr ':',
   Token.int (isri2.depth : ℤ),
   Token.chr ':',
   Token.int ((isri1.n_q30_ref_reads + isri1.n_q30_alt_reads : ℕ) : ℤ), Token.chr ',',
   Token.int ((isri2.n_q30_ref_reads + isri2.n_q30_alt_reads : ℕ) : ℤ),
   Token.chr ':',
   Token.int (isri1.n_q30_indel_reads : ℤ), Token.chr ',',
   Token.int (isri2.n_q30_indel_reads : ℤ),
   Token.chr ':',
   Token.int (isri1.n_other_reads : ℤ), Token.chr ',',
   Token.int (isri2.n_other_reads : ℤ),
   Token.chr ':', Token.float (FloatVal.rat (was.ss_used_win_avg + was.ss_filt_win_avg)) true,
   Token.chr ':', Token.float (FloatVal.rat was.ss_filt_win_avg) true,
   Token.chr ':', Token.float (FloatVal.rat was.ss_submap_win_avg) true,
   Token.chr ':', Token.float (FloatVal.rat (calculateIndelAF isri1)) true,
   Token.str ",", Token.float (FloatVal.rat (calculateIndelAF isri2)) true,
   Token.chr ':', Token.float (calculateSOR isri1) true,
   Token.str ",", Token.float (calculateSOR isri2) true,
   Token.chr ':', Token.float (calculateFS isri1) true,
   Token.str ",", Token.float (calculateFS isri2) true,
   Token.chr ':', Token.float (FloatVal.rat isri1.readpos_ranksum_u_stat) true,
   Token.str ",", Token.float (FloatVal.rat isri2.readpos_ranksum_u_stat) true,
   Token.chr ':', Token.float (FloatVal.rat isri1.mean_mapq) true,
   Token.str ",", Token.float (FloatVal.rat isri2.mean_mapq) true,
   Token.chr ':', Token.float (FloatVal.rat isri1.mapq0_frac) true,
   Token.str ",", Token.float (FloatVal.rat isri2.mapq0_frac) true]

/-- The site-filter block of writeSomaticIndelVcfGrid (source lines 146-178):
HighDepth from the tier-1 normal depth, IndelBCNoise from the window averages
(converted to int before safeFrac, as in the source), QSI_ref from the normal
genotype classification and the NT-relative quality. -/
def computeSiteFilters (opt : strelka_options) (dopt : strelka_deriv_options)
    (siInfo : SomaticIndelVcfInfo) (wasNormal wasTumor : win_avg_set) :
    strelka_shared_modifiers :=
  let rs := siInfo.sindel.rs
  let smod0 : strelka_shared_modifiers := {}
  let smod1 :=
    if dopt.sfilter.is_max_depth then
      (if (siInfo.nisri0.depth : ℚ) > dopt.sfilter.max_depth then
        smod0.set_filter STRELKA_VCF_FILTERS.HighDepth
      else smod0)
    else smod0
  let normalFilt : ℤ := cppTruncToInt wasNormal.ss_filt_win_avg
  let normalUsed : ℤ := cppTruncToInt wasNormal.ss_used_win_avg
  let normalWinFrac : ℚ := safeFrac normalFilt (normalFilt + normalUsed)
  let tumorFilt : ℤ := cppTruncToInt wasTumor.ss_filt_win_avg
  let tumorUsed : ℤ := cppTruncToInt wasTumor.ss_used_win_avg
  let tumorWinFrac : ℚ := safeFrac tumorFilt (tumorFilt + tumorUsed)
  let smod2 :=
    if normalWinFrac ≥ opt.sfilter.indelMaxWindowFilteredBasecallFrac ∨
       tumorWinFrac ≥ opt.sfilter.indelMaxWindowFilteredBasecallFrac then
      smod1.set_filter STRELKA_VCF_FILTERS.IndelBCNoise
    else smod1
  let smod3 :=
    if rs.ntype ≠ NTYPE.REF ∨
       ((rs.sindel_from_ntype_qphred : ℚ) < opt.sfilter.sindelQuality_LowerBound) then
      smod2.set_filter STRELKA_VCF_FILTERS.QSI_ref
    else smod2
  smod3

/-- The spec-worded per-sample filtered window fraction, for comparison with
the filter block: filteredAvg / (filteredAvg + usedAvg), 0 when the
denominator is 0, with no integer truncation. -/
def filteredFraction_specModel (filtAvg usedAvg : ℚ) : ℚ :=
  if filtAvg + usedAvg = 0 then 0 else filtAvg / (filtAvg + usedAvg)

/-- writeSomaticIndelVcfGrid (source lines 133-242): one full VCF record as a
token list, in source stream order. -/
def writeSomaticIndelVcfGrid (opt : strelka_options) (dopt : strelka_deriv_options)
    (pos : ℤ) (siInfo : SomaticIndelVcfInfo) (wasNormal wasTumor : win_avg_set) :
    List Token :=
  let rs := siInfo.sindel.rs
  let smod := computeSiteFilters opt dopt siInfo wasNormal wasTumor
  let output_pos := pos + 1
  [Token.str opt.bam_seq_name,
   Token.chr '\t', Token.int output_pos,
   Token.chr '\t', Token.str ".",
   Token.chr '\t', Token.str siInfo.iri.vcf_ref_seq,
   Token.chr '\t', Token.str siInfo.iri.vcf_indel_seq,
   Token.chr '\t', Token.str ".",
   Token.chr '\t', Token.filtersTok smod.filters,
   Token.chr '\t', Token.str "SOMATIC",
   Token.str ";QSI=", Token.int (rs.sindel_qphred : ℤ),
   Token.str ";TQSI=", Token.int ((siInfo.sindel.sindel_tier + 1 : ℕ) : ℤ),
   Token.str ";NT=", Token.ntypeLabel rs.ntype,
   Token.str ";QSI_NT=", Token.int (rs.sindel_from_ntype_qphred : ℤ),
   Token.str ";TQSI_NT=", Token.int ((siInfo.sindel.sindel_from_ntype_tier + 1 : ℕ) : ℤ),
   Token.str ";SGT=", Token.sgt rs.max_gt]
  ++ (if siInfo.iri.is_repeat_unit then
        [Token.str ";RU=", Token.str siInfo.iri.repeat_unit,
         Token.str ";RC=", Token.int (siInfo.iri.ref_repeat_count : ℤ),
         Token.str ";IC=", Token.int (siInfo.iri.indel_repeat_count : ℤ)]
      else [])
  ++ [Token.str ";IHP=", Token.int (siInfo.iri.ihpol : ℤ)]
  ++ (if siInfo.iri.it = INDEL_index.BP_LEFT ∨ siInfo.iri.it = INDEL_index.BP_RIGHT then
        [Token.str ";SVTYPE=BND"]
      else [])
  ++ (if rs.is_overlap then [Token.str ";OVERLAP"] else [])
  ++ [Token.chr '\t', Token.str "DP:DP2:TAR:TIR:TOR:DP50:FDP50:SUBDP50:AF:SOR:FS:RR:MQ:MQ0",
      Token.chr '\t']
  ++ write_vcf_isri_tiers siInfo.nisri0 siInfo.nisri1 wasNormal
  ++ [Token.chr '\t']
  ++ write_vcf_isri_tiers siInfo.tisri0 siInfo.tisri1 wasTumor
  ++ [Token.chr '\n']

/-- The writer state: options, the per-position candidate buffer (the std::map
from pos_t to a vector of SomaticIndelVcfInfo, modelled as a total function
defaulting to the empty list), and the output stream as a list of emitted
records (one record per writeSomaticIndelVcfGrid call). -/
structure SomaticIndelVcfWriter where
  opt : strelka_options
  dopt : strelka_deriv_options
  data : ℤ → List SomaticIndelVcfInfo
  output : List (List Token)

/-- testPos: whether a position has pending cached candidates
(the hasPending existence check of the spec).  Modelled from the spec: the
member is declared in the header outside this slice. -/
def SomaticIndelVcfWriter.testPos (w : SomaticIndelVcfWriter) (pos : ℤ) : Bool :=
  !(w.data pos).isEmpty

/-- cacheIndel (source lines 245-262): append the candidate to the list at the
position (the error-on-duplicate branch is compiled out in the source). -/
def SomaticIndelVcfWriter.cacheIndel (w : SomaticIndelVcfWriter) (pos : ℤ)
    (siInfo : SomaticIndelVcfInfo) : SomaticIndelVcfWriter :=
  { w with data := Function.update w.data pos (w.data pos ++ [siInfo]) }

/-- addIndelWindowData (source lines 266-279): assert(testPos(pos)) — modelled
as returning none on assertion failure — then render every buffered candidate
at the position in insertion order and erase the position entry. -/
def SomaticIndelVcfWriter.addIndelWindowData (w : SomaticIndelVcfWriter) (pos : ℤ)
    (wasNormal wasTumor : win_avg_set) : Option SomaticIndelVcfWriter :=
  if w.testPos pos then
    some { w with
      output := w.output ++ (w.data pos).map
        (fun siInfo => writeSomaticIndelVcfGrid w.opt w.dopt pos siInfo wasNormal wasTumor),
      data := Function.update w.data pos [] }
  else none

/-! ### Helper lemmas and concrete fixtures -/

/-- Membership after set_filter: the new set holds exactly the old members and
the added flag. -/
theorem mem_set_filter (smod : strelka_shared_modifiers) (f g : STRELKA_VCF_FILTERS) :
    g ∈ (smod.set_filter f).filters ↔ (g = f ∨ g ∈ smod.filters) := by
  unfold strelka_shared_modifiers.set_filter
  split
  · constructor
    · exact Or.inr
    · rintro (rfl | hg) <;> assumption
  · simp [List.mem_append, or_comm]

/-- A zeroed evidence record. -/
def isriZero : starling_indel_sample_report_info :=
  ⟨0, 0, 0, 0, 0, 0, 0, 0, 0, 0, 0, 0⟩

/-- An evidence record with 2 indel reads out of 5 high-confidence reads. -/
def isriSmall : starling_indel_sample_report_info :=
  ⟨10, 2, 1, 2, 2, 1, 1, 2, 0, 0, 0, 0⟩

/-- An evidence record whose cross-product refFwd times indelRev equals 2 ^ 32
exactly, overflowing the 32-bit unsigned intermediates of calculateSOR. -/
def isriOverflow : starling_indel_sample_report_info :=
  ⟨0, 0, 0, 0, 65536, 1, 1, 65536, 0, 0, 0, 0⟩

/-- Options fixture: window-filtered-fraction threshold 1/2, NT-relative
quality lower bound 30. -/
def optEx : strelka_options := ⟨"chr1", ⟨1/2, 30⟩⟩

/-- Derived-options fixture with no max-depth threshold configured. -/
def doptEx : strelka_deriv_options := ⟨⟨false, 0⟩⟩

/-- Zeroed window averages. -/
def wasEx : win_avg_set := ⟨0, 0, 0⟩

/-- Window averages with filtered average 9/10 and used average 1/10: the
exact filtered fraction is 9/10 but both truncate to 0. -/
def wasHighFilt : win_avg_set := ⟨1/10, 9/10, 0⟩

/-- A minimal candidate: reference NT, no repeat unit, ordinary indel. -/
def siInfoEx : SomaticIndelVcfInfo :=
  ⟨⟨⟨NTYPE.REF, 50, 50, 2, false⟩, 0, 0⟩,
   ⟨"A", "AT", false, "", 0, 0, 3, INDEL_index.ORDINARY⟩,
   isriZero, isriZero, isriZero, isriZero⟩

/-- A second candidate at the same position, differing in its alternate
sequence and carrying repeat-unit metadata. -/
def siInfoEx2 : SomaticIndelVcfInfo :=
  ⟨⟨⟨NTYPE.REF, 40, 40, 2, false⟩, 0, 0⟩,
   ⟨"A", "AG", true, "G", 1, 2, 3, INDEL_index.ORDINARY⟩,
   isriZero, isriZero, isriZero, isriZero⟩

/-- A candidate whose tier-1 normal mean mapping quality is 37, with all other
float-valued inputs 0. -/
def siInfoMapq : SomaticIndelVcfInfo :=
  ⟨⟨⟨NTYPE.REF, 50, 50, 2, false⟩, 0, 0⟩,
   ⟨"A", "AT", false, "", 0, 0, 3, INDEL_index.ORDINARY⟩,
   ⟨0, 0, 0, 0, 0, 0, 0, 0, 0, 0, 37, 0⟩, isriZero, isriZero, isriZero⟩

/-- A writer fixture holding two candidates at position 5 and nothing else. -/
def wEx : SomaticIndelVcfWriter :=
  ⟨optEx, doptEx, fun p => if p = 5 then [siInfoEx, siInfoEx2] else [], []⟩

/-! ### Claim theorems -/

/-- C8: for every evidence record, if the total of high-confidence ref, alt
and indel reads is zero then calculateIndelAF returns exactly 0 (no
division-by-zero fault), otherwise it returns the indel count divided by that
total. -/
theorem calculateIndelAF_total_safe (isri : starling_indel_sample_report_info) :
    (isri.n_q30_ref_reads + isri.n_q30_alt_reads + isri.n_q30_indel_reads = 0 →
      calculateIndelAF isri = 0) ∧
    (isri.n_q30_ref_reads + isri.n_q30_alt_reads + isri.n_q30_indel_reads ≠ 0 →
      calculateIndelAF isri =
        (isri.n_q30_indel_reads : ℚ) /
        ((isri.n_q30_ref_reads + isri.n_q30_alt_reads + isri.n_q30_indel_reads : ℕ) : ℚ)) := by
  constructor
  · intro h
    simp [calculateIndelAF, safeFrac, h]
  · intro h
    have hpos : ((isri.n_q30_ref_reads + isri.n_q30_alt_reads + isri.n_q30_indel_reads : ℕ) : ℤ) > 0 := by
      exact_mod_cast Nat.pos_of_ne_zero h
    unfold calculateIndelAF safeFrac
    rw [if_pos hpos]
    push_cast
    ring

/-- Witness for C8: on the zero record the allele fraction is 0, and on a
record with 2 indel reads out of 5 it is 2/5. -/
theorem calculateIndelAF_total_safe_witness :
    calculateIndelAF isriZero = 0 ∧ calculateIndelAF isriSmall = (2 : ℚ) / 5 :=
  ⟨(calculateIndelAF_total_safe isriZero).1 (by decide),
   by rw [(calculateIndelAF_total_safe isriSmall).2 (by decide)]; norm_num [isriSmall]⟩

/-- C2 counterexample: with refFwd = indelRev = 65536 and refRev = indelFwd = 1
the exact cross-product refFwd times indelRev is 2 ^ 32, but the source stores
it into a 32-bit unsigned int, which wraps to 0, so calculateSOR returns
log10(0) instead of the spec value log10(2 ^ 32 / 1). -/
theorem calculateSOR_overflow_cex :
    calculateSOR isriOverflow = FloatVal.log10val 0 ∧
    calculateSOR_specModel isriOverflow = FloatVal.log10val ((4294967296 : ℚ) / 1) ∧
    calculateSOR isriOverflow ≠ calculateSOR_specModel isriOverflow := by
  refine ⟨by norm_num [calculateSOR, isriOverflow],
    by norm_num [calculateSOR_specModel, isriOverflow],
    by norm_num [calculateSOR, calculateSOR_specModel, isriOverflow]⟩

/-- C2 amended: calculateSOR returns positive infinity iff the cross-product
refRev times indelFwd is zero modulo 2 ^ 32 (the products are computed in
32-bit unsigned arithmetic and can wrap); whenever both cross-products are
below 2 ^ 32 it agrees with the spec formula log10((refFwd x indelRev) /
(refRev x indelFwd)). -/
theorem calculateSOR_unsigned32 (isri : starling_indel_sample_report_info) :
    (calculateSOR isri = FloatVal.posInf ↔
      (isri.n_q30_ref_reads_rev * isri.n_q30_indel_reads_fwd) % 2 ^ 32 = 0) ∧
    (isri.n_q30_ref_reads_fwd * isri.n_q30_indel_reads_rev < 2 ^ 32 →
      isri.n_q30_ref_reads_rev * isri.n_q30_indel_reads_fwd < 2 ^ 32 →
      calculateSOR isri = calculateSOR_specModel isri) := by
  constructor
  · simp only [calculateSOR]
    split <;> simp_all
  · intro h1 h2
    simp only [calculateSOR, calculateSOR_specModel]
    rw [Nat.mod_eq_of_lt h1, Nat.mod_eq_of_lt h2]

/-- Witness for C2: at a small evidence record both cross-products are below
2 ^ 32, so the 32-bit computation agrees with the exact formula. -/
theorem calculateSOR_unsigned32_witness :
    calculateSOR isriSmall = calculateSOR_specModel isriSmall :=
  (calculateSOR_unsigned32 isriSmall).2 (by decide) (by decide)

/-- C3 counterexample: with filtered average 9/10 and used average 1/10 the
spec fraction is 9/10, at or above the configured threshold 1/2, yet the
source first truncates both averages to int (both become 0), gets safeFrac
0/0 = 0, and does not set IndelBCNoise. -/
theorem indelBCNoise_truncation_cex :
    filteredFraction_specModel (9/10 : ℚ) (1/10 : ℚ) ≥
      optEx.sfilter.indelMaxWindowFilteredBasecallFrac ∧
    STRELKA_VCF_FILTERS.IndelBCNoise ∉
      (computeSiteFilters optEx doptEx siInfoEx wasHighFilt wasHighFilt).filters := by
  constructor
  · norm_num [filteredFraction_specModel, optEx]
  · have h1 : cppTruncToInt (9/10 : ℚ) = 0 := by
      norm_num [cppTruncToInt]
    have h2 : cppTruncToInt (1/10 : ℚ) = 0 := by
      norm_num [cppTruncToInt]
    simp only [computeSiteFilters, wasHighFilt, h1, h2]
    norm_num [safeFrac, optEx, doptEx, siInfoEx, strelka_shared_modifiers.set_filter]

/-- C3 amended: the IndelBCNoise flag is set iff, for at least one sample, the
filtered window fraction computed from the averages truncated toward zero to
int — safeFrac(trunc(filt), trunc(filt) + trunc(used)), which is 0 whenever
the integer denominator is not positive — is at or above the configured
max-window-filtered-basecall fraction. -/
theorem indelBCNoise_iff (opt : strelka_options) (dopt : strelka_deriv_options)
    (siInfo : SomaticIndelVcfInfo) (wasNormal wasTumor : win_avg_set) :
    STRELKA_VCF_FILTERS.IndelBCNoise ∈
      (computeSiteFilters opt dopt siInfo wasNormal wasTumor).filters ↔
    (safeFrac (cppTruncToInt wasNormal.ss_filt_win_avg)
        (cppTruncToInt wasNormal.ss_filt_win_avg + cppTruncToInt wasNormal.ss_used_win_avg) ≥
        opt.sfilter.indelMaxWindowFilteredBasecallFrac ∨
      safeFrac (cppTruncToInt wasTumor.ss_filt_win_avg)
        (cppTruncToInt wasTumor.ss_filt_win_avg + cppTruncToInt wasTumor.ss_used_win_avg) ≥
        opt.sfilter.indelMaxWindowFilteredBasecallFrac) := by
  simp only [computeSiteFilters]
  split_ifs <;> simp_all [mem_set_filter]

/-- C6: HighDepth is set iff a max-depth threshold is configured and the
tier-1 normal-sample depth strictly exceeds it. -/
theorem highDepth_iff (opt : strelka_options) (dopt : strelka_deriv_options)
    (siInfo : SomaticIndelVcfInfo) (wasNormal wasTumor : win_avg_set) :
    STRELKA_VCF_FILTERS.HighDepth ∈
      (computeSiteFilters opt dopt siInfo wasNormal wasTumor).filters ↔
    (dopt.sfilter.is_max_depth = true ∧
      (siInfo.nisri0.depth : ℚ) > dopt.sfilter.max_depth) := by
  simp only [computeSiteFilters]
  split_ifs <;> simp_all [mem_set_filter]

/-- C7: whenever the inferred normal genotype is not reference, or the
NT-relative somatic quality is below the configured lower bound, the QSI_ref
flag is in the computed filter set, regardless of every other input, and the
rendered record carries that filter set in its FILTER column token. -/
theorem qsiRef_of_nonref_or_lowq (opt : strelka_options) (dopt : strelka_deriv_options)
    (pos : ℤ) (siInfo : SomaticIndelVcfInfo) (wasNormal wasTumor : win_avg_set)
    (h : siInfo.sindel.rs.ntype ≠ NTYPE.REF ∨
      ((siInfo.sindel.rs.sindel_from_ntype_qphred : ℚ) < opt.sfilter.sindelQuality_LowerBound)) :
    STRELKA_VCF_FILTERS.QSI_ref ∈
      (computeSiteFilters opt dopt siInfo wasNormal wasTumor).filters ∧
    Token.filtersTok ((computeSiteFilters opt dopt siInfo wasNormal wasTumor).filters) ∈
      writeSomaticIndelVcfGrid opt dopt pos siInfo wasNormal wasTumor := by
  constructor
  · simp only [computeSiteFilters]
    split_ifs <;> simp_all [mem_set_filter]
  · simp [writeSomaticIndelVcfGrid]

/-- A candidate identical to siInfoEx except that the inferred normal genotype
is het. -/
def siInfoHet : SomaticIndelVcfInfo :=
  ⟨⟨⟨NTYPE.HET, 50, 50, 2, false⟩, 0, 0⟩,
   ⟨"A", "AT", false, "", 0, 0, 3, INDEL_index.ORDINARY⟩,
   isriZero, isriZero, isriZero, isriZero⟩

/-- Witness for C7: a het-NT candidate gets the QSI_ref flag even though its
NT-relative quality 50 is above the lower bound 30. -/
theorem qsiRef_of_nonref_or_lowq_witness :
    STRELKA_VCF_FILTERS.QSI_ref ∈
      (computeSiteFilters optEx doptEx siInfoHet wasEx wasEx).filters ∧
    Token.filtersTok ((computeSiteFilters optEx doptEx siInfoHet wasEx wasEx).filters) ∈
      writeSomaticIndelVcfGrid optEx doptEx 0 siInfoHet wasEx wasEx :=
  qsiRef_of_nonref_or_lowq optEx doptEx 0 siInfoHet wasEx wasEx
    (Or.inl (by simp [siInfoHet]))

/-- C1: flushing a position that has pending candidates succeeds (no assertion
failure), appends to the output exactly one rendered record per cached
candidate, in the original insertion order, and afterward the position has no
pending candidates. -/
theorem addIndelWindowData_flushes_all (w : SomaticIndelVcfWriter) (pos : ℤ)
    (wasNormal wasTumor : win_avg_set) (h : w.testPos pos = true) :
    (w.addIndelWindowData pos wasNormal wasTumor).map SomaticIndelVcfWriter.output =
      some (w.output ++ (w.data pos).map
        (fun siInfo => writeSomaticIndelVcfGrid w.opt w.dopt pos siInfo wasNormal wasTumor)) ∧
    (w.addIndelWindowData pos wasNormal wasTumor).map (fun w2 => w2.testPos pos) =
      some false := by
  unfold SomaticIndelVcfWriter.addIndelWindowData
  rw [if_pos h]
  refine ⟨rfl, ?_⟩
  simp [SomaticIndelVcfWriter.testPos, Function.update_same]

/-- Witness for C1: flushing position 5 of the two-candidate fixture emits the
two rendered records in insertion order and empties the position. -/
theorem addIndelWindowData_flushes_all_witness :
    (wEx.addIndelWindowData 5 wasEx wasEx).map SomaticIndelVcfWriter.output =
      some (wEx.output ++ (wEx.data 5).map
        (fun siInfo => writeSomaticIndelVcfGrid wEx.opt wEx.dopt 5 siInfo wasEx wasEx)) ∧
    (wEx.addIndelWindowData 5 wasEx wasEx).map (fun w2 => w2.testPos 5) = some false :=
  addIndelWindowData_flushes_all wEx 5 wasEx wasEx (by rfl)

/-- C5: flushing a position with no pending candidates trips the
assert(testPos(pos)) precondition — modelled as returning none — and never
completes normally with zero rendered records. -/
theorem addIndelWindowData_empty_asserts (w : SomaticIndelVcfWriter) (pos : ℤ)
    (wasNormal wasTumor : win_avg_set) (h : w.testPos pos = false) :
    w.addIndelWindowData pos wasNormal wasTumor = none := by
  unfold SomaticIndelVcfWriter.addIndelWindowData
  rw [if_neg]
  simp [h]

/-- Witness for C5: the fixture has nothing pending at position 6, so a flush
there hits the assertion. -/
theorem addIndelWindowData_empty_asserts_witness :
    wEx.addIndelWindowData 6 wasEx wasEx = none :=
  addIndelWindowData_empty_asserts wEx 6 wasEx wasEx (by rfl)

/-- C10: caching at a position appends to that position's candidate list and
leaves every other position's list unchanged; flushing a pending position
empties exactly that position's entry and leaves every other position's list
unchanged. -/
theorem cache_flush_frame (w : SomaticIndelVcfWriter) (pos q : ℤ)
    (siInfo : SomaticIndelVcfInfo) (wasNormal wasTumor : win_avg_set)
    (hq : q ≠ pos) (hp : w.testPos pos = true) :
    (w.cacheIndel pos siInfo).data pos = w.data pos ++ [siInfo] ∧
    (w.cacheIndel pos siInfo).data q = w.data q ∧
    (w.addIndelWindowData pos wasNormal wasTumor).map (fun w2 => w2.data pos) =
      some [] ∧
    (w.addIndelWindowData pos wasNormal wasTumor).map (fun w2 => w2.data q) =
      some (w.data q) := by
  unfold SomaticIndelVcfWriter.cacheIndel SomaticIndelVcfWriter.addIndelWindowData
  rw [if_pos hp]
  refine ⟨by simp [Function.update_same], by simp [Function.update_noteq hq], ?_, ?_⟩
  · simp [Function.update_same]
  · simp [Function.update_noteq hq]

/-- Witness for C10: caching at position 5 and flushing position 5 of the
fixture leave position 7 untouched. -/
theorem cache_flush_frame_witness :
    (wEx.cacheIndel 5 siInfoEx).data 5 = wEx.data 5 ++ [siInfoEx] ∧
    (wEx.cacheIndel 5 siInfoEx).data 7 = wEx.data 7 ∧
    (wEx.addIndelWindowData 5 wasEx wasEx).map (fun w2 => w2.data 5) = some [] ∧
    (wEx.addIndelWindowData 5 wasEx wasEx).map (fun w2 => w2.data 7) =
      some (wEx.data 7) :=
  cache_flush_frame wEx 5 7 siInfoEx wasEx wasEx (by decide) (by rfl)

/-- Whether a token respects fixed-2 formatting: true unless the token is a
float printed while the stream was in default formatting mode. -/
def Token.floatIsFixed2 : Token → Bool
  | Token.float _ b => b
  | _ => true

/-- C4 counterexample: in a record whose tier-1 normal mean mapping quality is
37, the mean-mapping-quality value is printed while the stream is still in
fixed/setprecision(2) mode (the StreamScoper only restores the flags at the
end of write_vcf_isri_tiers), so no default-formatted float token for it
exists, contradicting the claim that non-window floats use default rendering. -/
theorem record_mapq_fixed2_cex :
    Token.float (FloatVal.rat 37) true ∈
      writeSomaticIndelVcfGrid optEx doptEx 0 siInfoMapq wasEx wasEx ∧
    Token.float (FloatVal.rat 37) false ∉
      writeSomaticIndelVcfGrid optEx doptEx 0 siInfoMapq wasEx wasEx := by
  constructor <;>
    simp [writeSomaticIndelVcfGrid, write_vcf_isri_tiers, siInfoMapq, isriZero,
      wasEx, optEx, doptEx]

/-- C4 amended: every floating-point value in the rendered record — the
window-derived fields and equally the allele fraction, strand-odds ratio,
strand-bias phred score, rank-sum statistic, mean mapping quality and
zero-mapping-quality fraction — is printed in fixed 2-decimal mode; no float
in the record is printed with the default formatting. -/
theorem record_floats_all_fixed2 (opt : strelka_options) (dopt : strelka_deriv_options)
    (pos : ℤ) (siInfo : SomaticIndelVcfInfo) (wasNormal wasTumor : win_avg_set) :
    (writeSomaticIndelVcfGrid opt dopt pos siInfo wasNormal wasTumor).all
      Token.floatIsFixed2 = true := by
  cases hru : siInfo.iri.is_repeat_unit <;>
    cases hov : siInfo.sindel.rs.is_overlap <;>
      rcases hit : siInfo.iri.it <;>
        simp [writeSomaticIndelVcfGrid, write_vcf_isri_tiers, Token.floatIsFixed2,
          hru, hov, hit]

/-- The three literal markers that introduce the repeat-unit annotation
fields in the INFO block. -/
def ruMarkers : List String := [";RU=", ";RC=", ";IC="]

/-- Membership in a conditionally emitted token block. -/
theorem mem_ite_nil_block {α : Type} (a : α) (c : Prop) [Decidable c] (l : List α) :
    (a ∈ if c then l else []) ↔ (c ∧ a ∈ l) := by
  split <;> simp_all

/-- C9: provided the free-form sequence strings of the record are not
themselves one of the literal markers, each of the repeat-unit markers RU, RC
and IC appears in the rendered record iff the descriptor carries repeat-unit
metadata; with the metadata absent the fields are omitted entirely. -/
theorem repeatUnit_fields_iff (opt : strelka_options) (dopt : strelka_deriv_options)
    (pos : ℤ) (siInfo : SomaticIndelVcfInfo) (wasNormal wasTumor : win_avg_set)
    (h1 : opt.bam_seq_name ∉ ruMarkers)
    (h2 : siInfo.iri.vcf_ref_seq ∉ ruMarkers)
    (h3 : siInfo.iri.vcf_indel_seq ∉ ruMarkers) :
    ∀ m ∈ ruMarkers,
      (Token.str m ∈ writeSomaticIndelVcfGrid opt dopt pos siInfo wasNormal wasTumor ↔
        siInfo.iri.is_repeat_unit = true) := by
  intro m hm
  simp only [ruMarkers, List.mem_cons, List.mem_singleton, List.not_mem_nil,
    or_false] at hm h1 h2 h3
  push_neg at h1 h2 h3
  obtain ⟨h1a, h1b, h1c⟩ := h1
  obtain ⟨h2a, h2b, h2c⟩ := h2
  obtain ⟨h3a, h3b, h3c⟩ := h3
  rcases hm with rfl | rfl | rfl <;>
    simp [writeSomaticIndelVcfGrid, write_vcf_isri_tiers, mem_ite_nil_block,
      Ne.symm h1a, Ne.symm h1b, Ne.symm h1c, Ne.symm h2a, Ne.symm h2b,
      Ne.symm h2c, Ne.symm h3a, Ne.symm h3b, Ne.symm h3c]

/-- Witness for C9: the fixture candidate that carries repeat-unit metadata
renders the RU marker. -/
theorem repeatUnit_fields_iff_witness :
    Token.str ";RU=" ∈ writeSomaticIndelVcfGrid optEx doptEx 0 siInfoEx2 wasEx wasEx :=
  ((repeatUnit_fields_iff optEx doptEx 0 siInfoEx2 wasEx wasEx
    (by decide) (by decide) (by decide)) ";RU=" (by decide)).mpr rfl
